import Mathlib

/-!
Shallow embedding of the `save_on_write` crate (src/lib.rs).

The crate wraps a hashable value in a `HashListener` together with a mutation
callback.  `lock` produces a `HashListenerLock` guard recording the content
hash at creation; mutable access through the guard sets a `possible_change`
flag; on drop the guard recomputes the hash and, exactly when it changed,
invokes the callback once with the current value.  `SoW` composes this with
JSON-file persistence.

Modelling conventions:
- the content hash (Rust `DefaultHasher` over `T : Hash`) is an explicit
  function parameter `hashF : T → Nat`;
- the boxed `FnMut(&mut T)` callback may perform I/O and may panic (the store
  closures call `.unwrap()`), so it is embedded as `T → W → Option (T × W)`
  over an explicit world `W`; `none` models a panic, and the returned `T` is
  the value after the callback's mutation of its `&mut T` argument;
- guard drop is an explicit function returning the released listener, the
  world, and how many times the callback ran (`none` if the callback panicked);
- the file system is a `FS` value: an association list of files plus a flag
  injecting write failures; `serde_json` encode/decode are explicit
  `encode`/`decode` function parameters returning `Except`.
-/

variable {T W : Type}

/-- Listener struct that runs a method when a change is detected
(`HashListener<T>` in src/lib.rs): an owned item plus a boxed callback. -/
structure HashListener (T : Type) (W : Type) where
  item : T
  method : T → W → Option (T × W)

/-- A lock used to detect whether the value was changed, checked on drop
(`HashListenerLock<'a, T>`): the borrowed listener, the `possible_change`
flag (false at creation) and the content hash taken at creation. -/
structure HashListenerLock (T : Type) (W : Type) where
  listener : HashListener T W
  possible_change : Bool
  hash : Nat

/-- `HashListener::new`: takes ownership of the item and the callback. -/
def HashListener.new (item : T) (method : T → W → Option (T × W)) :
    HashListener T W :=
  { item := item, method := method }

/-- `HashListener::lock`: hashes the current item and returns the guard with
`possible_change = false` and that hash recorded. -/
def HashListener.lock (l : HashListener T W) (hashF : T → Nat) :
    HashListenerLock T W :=
  { listener := l, possible_change := false, hash := hashF l.item }

/-- `HashListenerLock::detected_possible_change`: returns the flag. -/
def HashListenerLock.detected_possible_change (lck : HashListenerLock T W) :
    Bool :=
  lck.possible_change

/-- `HashListenerLock::detected_change`: returns `false` immediately when
`possible_change` is unset; otherwise rehashes the current item and compares
with the hash taken at lock creation (`self.hash != hash2`). -/
def HashListenerLock.detected_change (lck : HashListenerLock T W)
    (hashF : T → Nat) : Bool :=
  if !lck.possible_change then false
  else
    let hash2 := hashF lck.listener.item
    decide (lck.hash ≠ hash2)

/-- `Deref::deref`: an immutable view of the inner item; takes the guard by
shared reference, so the guard state cannot change. -/
def HashListenerLock.deref (lck : HashListenerLock T W) : T :=
  lck.listener.item

/-- `DerefMut::deref_mut` followed by whatever the caller does through the
returned `&mut T`: the flag is set unconditionally, and `f` is the write the
caller performs through the reference (`f = id` models taking the mutable
reference without writing anything different). -/
def HashListenerLock.deref_mut (lck : HashListenerLock T W) (f : T → T) :
    HashListenerLock T W :=
  { lck with
      possible_change := true
      listener := { lck.listener with item := f lck.listener.item } }

/-- `impl Drop for HashListenerLock`: if no change is detected, return without
invoking the callback; otherwise run the callback once on the current item.
Returns the released listener, the world, and the number of callback
invocations; `none` models a panic inside the callback. -/
def HashListenerLock.drop (lck : HashListenerLock T W) (hashF : T → Nat)
    (w : W) : Option (HashListener T W × W × Nat) :=
  if !(lck.detected_change hashF) then some (lck.listener, w, 0)
  else
    match lck.listener.method lck.listener.item w with
    | none => none
    | some (item2, w2) => some ({ lck.listener with item := item2 }, w2, 1)

/-- One access a caller can make through a live guard: a shared read
(`deref`) or a mutable access writing `f` through the `&mut` (`deref_mut`). -/
inductive GuardOp (T : Type) where
  | read
  | write (f : T → T)

/-- Effect of one access on the guard state: reads take `&self` and change
nothing; mutable accesses go through `deref_mut`. -/
def HashListenerLock.step (lck : HashListenerLock T W) :
    GuardOp T → HashListenerLock T W
  | GuardOp.read => lck
  | GuardOp.write f => lck.deref_mut f

/-- A sequence of accesses performed through one guard. -/
def HashListenerLock.runOps (lck : HashListenerLock T W) :
    List (GuardOp T) → HashListenerLock T W
  | [] => lck
  | op :: ops => (lck.step op).runOps ops

/-- Repeatedly lock the listener, perform `nReads` shared reads, and drop the
guard; accumulates the total number of callback invocations. -/
def repeatReadRounds (hashF : T → Nat) (nReads : Nat) :
    Nat → HashListener T W → W → Nat → Option (HashListener T W × W × Nat)
  | 0, l, w, acc => some (l, w, acc)
  | reps + 1, l, w, acc =>
    match ((l.lock hashF).runOps (List.replicate nReads GuardOp.read)).drop
        hashF w with
    | none => none
    | some (l2, w2, c) => repeatReadRounds hashF nReads reps l2 w2 (acc + c)

/-- The file-system world: stored files (first match wins on lookup, so
prepending overwrites) and a flag injecting write failures (disk full,
permission revoked, …). -/
structure FS where
  files : List (String × String)
  failWrites : Bool

/-- `File::open` + read (`std::fs` read path): the contents at `path`, or an
I/O error when the file does not exist. -/
def fsRead (path : String) (fs : FS) : Except String String :=
  match fs.files.lookup path with
  | none => Except.error "NotFound"
  | some c => Except.ok c

/-- `std::fs::write`: overwrites the file at `path`, or fails when the world
injects write failures. -/
def fsWrite (path contents : String) (fs : FS) : Except String FS :=
  if fs.failWrites then Except.error "WriteError"
  else Except.ok { fs with files := (path, contents) :: fs.files }

/-- `DataReadError` (src/lib.rs): `ReadError(io::Error)` and
`SerdeError(serde_json::Error)`, the latter being what the spec calls the
decode error. -/
inductive DataReadError where
  | ReadError (e : String)
  | SerdeError (e : String)
deriving DecidableEq, Repr

/-- The save closure installed by both `SoW` constructors:
`|item| { let _ = std::fs::write(&pth, serde_json::to_string(&item).unwrap()); }`.
Encoding failure hits the `.unwrap()` and panics (`none`); the write result is
bound to `_`, so a write failure is discarded and the closure still returns
normally with the world unchanged.  The `&mut T` argument is not written, so
the item comes back unchanged. -/
def saveClosure (encode : T → Except String String) (pth : String) :
    T → FS → Option (T × FS) :=
  fun item fs =>
    match encode item with
    | Except.error _ => none
    | Except.ok text =>
      match fsWrite pth text fs with
      | Except.error _ => some (item, fs)
      | Except.ok fs2 => some (item, fs2)

/-- `SoW<T>` ("write on save"): a `HashListener` whose world is the file
system. -/
structure SoW (T : Type) where
  item : HashListener T FS

/-- `SoW::new_from_file`: open and read the file (`?` converts the I/O error
into `ReadError`), decode a `T` (`?` converts the serde error into
`SerdeError`), and wrap the data in a listener whose callback is the save
closure bound to the same path. -/
def SoW.new_from_file (decode : String → Except String T)
    (encode : T → Except String String) (file : String) (fs : FS) :
    Except DataReadError (SoW T) :=
  match fsRead file fs with
  | Except.error e => Except.error (DataReadError.ReadError e)
  | Except.ok contents =>
    match decode contents with
    | Except.error e => Except.error (DataReadError.SerdeError e)
    | Except.ok data =>
      Except.ok { item := HashListener.new data (saveClosure encode file) }

/-- `SoW::new_from_item`: encode the item (`?` gives `SerdeError` on failure),
write it to `dest` (`?` converts the I/O error into `ReadError`), then wrap the
item in a listener whose callback is the save closure bound to `dest`.
Returns the updated file system alongside the store. -/
def SoW.new_from_item (encode : T → Except String String) (item : T)
    (dest : String) (fs : FS) : Except DataReadError (SoW T × FS) :=
  match encode item with
  | Except.error e => Except.error (DataReadError.SerdeError e)
  | Except.ok text =>
    match fsWrite dest text fs with
    | Except.error e => Except.error (DataReadError.ReadError e)
    | Except.ok fs2 =>
      Except.ok ({ item := HashListener.new item (saveClosure encode dest) },
        fs2)

/-- The identity hash on `Nat`, used as the content hash in concrete
instances (deterministic and injective, so hash disequality is value
disequality). -/
def idHash : Nat → Nat := fun t => t

/-- A concrete listener over `Nat` whose callback increments the value. -/
def incListener (n : Nat) : HashListener Nat Unit :=
  HashListener.new n (fun t _ => some (t + 1, ()))

/-- A concrete listener over `Nat` whose callback keeps the value. -/
def idListener (n : Nat) : HashListener Nat Unit :=
  HashListener.new n (fun t _ => some (t, ()))

/-- A concrete encoder that always succeeds: `n` is encoded as `n` copies of
`'a'` (so `lenDecode` inverts it). -/
def okEncode : Nat → Except String String :=
  fun n => Except.ok (String.mk (List.replicate n 'a'))

/-- A concrete decoder that always succeeds, inverting `okEncode`. -/
def lenDecode : String → Except String Nat :=
  fun s => Except.ok s.length

/-- A concrete encoder that always fails, modelling a value `serde_json`
cannot serialize. -/
def badEncode : Nat → Except String String :=
  fun _ => Except.error "boom"

/-- An empty, healthy file system. -/
def emptyFS : FS := { files := [], failWrites := false }

/-- An empty file system on which every write fails. -/
def failFS : FS := { files := [], failWrites := true }

/-! ## Helper lemmas -/

/-- A sequence of guard accesses never touches the hash recorded at lock
creation. -/
lemma runOps_hash (ops : List (GuardOp T)) (lck : HashListenerLock T W) :
    (lck.runOps ops).hash = lck.hash := by
  induction ops generalizing lck with
  | nil => rfl
  | cons op ops ih =>
    cases op with
    | read => exact ih lck
    | write f => exact (ih _).trans rfl

/-- Once `possible_change` is set, no further guard access clears it. -/
lemma runOps_flag_mono (ops : List (GuardOp T)) (lck : HashListenerLock T W)
    (h : lck.possible_change = true) :
    (lck.runOps ops).possible_change = true := by
  induction ops generalizing lck with
  | nil => exact h
  | cons op ops ih =>
    cases op with
    | read => exact ih lck h
    | write f => exact ih _ rfl

/-- Shared reads leave the whole guard state untouched. -/
lemma runOps_replicate_read (k : Nat) (lck : HashListenerLock T W) :
    lck.runOps (List.replicate k GuardOp.read) = lck := by
  induction k generalizing lck with
  | zero => rfl
  | succ k ih => exact ih lck

/-- Locking, reading `k` times and dropping releases the listener unchanged
with zero callback invocations. -/
lemma readRound_drop (l : HashListener T W) (hashF : T → Nat) (w : W)
    (k : Nat) :
    ((l.lock hashF).runOps (List.replicate k GuardOp.read)).drop hashF w =
      some (l, w, 0) := by
  rw [runOps_replicate_read]
  rfl

/-- Read-only rounds accumulate no callback invocations and never change the
listener or the world. -/
lemma repeatReadRounds_acc (hashF : T → Nat) (nReads : Nat)
    (l : HashListener T W) (w : W) :
    ∀ reps acc, repeatReadRounds hashF nReads reps l w acc = some (l, w, acc) := by
  intro reps
  induction reps with
  | zero => intro acc; rfl
  | succ reps ih =>
    intro acc
    simp only [repeatReadRounds, readRound_drop]
    exact ih (acc + 0)

/-! ## Claim theorems -/

/-- C1: dropping a guard consults `detected_change()`; exactly when it is
true, the listener's callback runs exactly once, receiving the current
(possibly mutated) value; when it is false the guard is released without
invoking the callback. -/
theorem drop_invokes_callback_iff_detected_change
    (lck : HashListenerLock T W) (hashF : T → Nat) (w : W) :
    (lck.detected_change hashF = false →
      lck.drop hashF w = some (lck.listener, w, 0)) ∧
    (lck.detected_change hashF = true →
      ∀ item2 w2, lck.listener.method lck.listener.item w = some (item2, w2) →
        lck.drop hashF w = some ({ lck.listener with item := item2 }, w2, 1)) := by
  constructor
  · intro h
    simp [HashListenerLock.drop, h]
  · intro h item2 w2 hm
    simp [HashListenerLock.drop, h, hm]

/-- Witness for C1: a listener holding `5`, mutated to `6` through the guard,
fires its callback exactly once on drop, on the mutated value. -/
theorem drop_invokes_callback_iff_detected_change_witness :
    (((incListener 5).lock idHash).deref_mut (fun t => t + 1)).detected_change
        idHash = true ∧
    (((incListener 5).lock idHash).deref_mut (fun t => t + 1)).drop idHash () =
      some (incListener 7, (), 1) :=
  ⟨by decide,
    (drop_invokes_callback_iff_detected_change _ _ _).2 (by decide) 7 () rfl⟩

/-- C2: `detected_change` returns false for every hash function (so without
recomputing any hash) when no mutable access was taken; otherwise it returns
exactly whether the recomputed hash of the current value differs from the one
recorded at lock creation, and `lock` records the hash of the value as it
stands at that moment (with the flag clear). -/
theorem detected_change_shortcircuits_then_compares_hash
    (lck : HashListenerLock T W) (l : HashListener T W) (hashF : T → Nat) :
    (lck.possible_change = false →
      ∀ g : T → Nat, lck.detected_change g = false) ∧
    (lck.possible_change = true →
      lck.detected_change hashF =
        decide (lck.hash ≠ hashF lck.listener.item)) ∧
    (l.lock hashF).hash = hashF l.item ∧
    (l.lock hashF).possible_change = false := by
  refine ⟨?_, ?_, rfl, rfl⟩
  · intro h g
    simp [HashListenerLock.detected_change, h]
  · intro h
    simp [HashListenerLock.detected_change, h]

/-- Witness for C2: a freshly locked listener holding `5` short-circuits to
false, and after a mutable access the comparison result is exactly the hash
disequality. -/
theorem detected_change_shortcircuits_then_compares_hash_witness :
    (((idListener 5).lock idHash).possible_change = false ∧
      ((idListener 5).lock idHash).detected_change (fun _ => 0) = false) ∧
    ((((idListener 5).lock idHash).deref_mut
        (fun t => t + 1)).possible_change = true ∧
      (((idListener 5).lock idHash).deref_mut
        (fun t => t + 1)).detected_change idHash = decide ((5 : Nat) ≠ 6)) :=
  ⟨⟨rfl, (detected_change_shortcircuits_then_compares_hash
      ((idListener 5).lock idHash) (idListener 5) idHash).1 rfl
      (fun _ => 0)⟩,
   ⟨rfl, (detected_change_shortcircuits_then_compares_hash
      (((idListener 5).lock idHash).deref_mut (fun t => t + 1))
      (idListener 5) idHash).2.1 rfl⟩⟩

/-- C3: a mutable access that leaves the value with the same hash as at lock
creation (e.g. writing back the same content) sets `possible_change`, yet
`detected_change` is false and the drop releases the guard with zero callback
invocations. -/
theorem samehash_writeback_sets_flag_but_no_callback
    (l : HashListener T W) (hashF : T → Nat) (f : T → T) (w : W)
    (h : hashF (f l.item) = hashF l.item) :
    (((l.lock hashF).deref_mut f).detected_possible_change = true) ∧
    (((l.lock hashF).deref_mut f).detected_change hashF = false) ∧
    (((l.lock hashF).deref_mut f).drop hashF w =
      some (((l.lock hashF).deref_mut f).listener, w, 0)) := by
  have hdc : ((l.lock hashF).deref_mut f).detected_change hashF = false := by
    simp [HashListenerLock.detected_change, HashListenerLock.deref_mut,
      HashListener.lock, h]
  exact ⟨rfl, hdc, by simp [HashListenerLock.drop, hdc]⟩

/-- Witness for C3: writing the identity through the guard of a listener
holding `3` flags a possible change but fires no callback. -/
theorem samehash_writeback_sets_flag_but_no_callback_witness :
    idHash ((fun (t : Nat) => t) (idListener 3).item) =
      idHash (idListener 3).item ∧
    ((((idListener 3).lock idHash).deref_mut
        (fun t => t)).detected_possible_change = true ∧
     (((idListener 3).lock idHash).deref_mut
        (fun t => t)).detected_change idHash = false ∧
     (((idListener 3).lock idHash).deref_mut (fun t => t)).drop idHash () =
      some ((((idListener 3).lock idHash).deref_mut
        (fun t => t)).listener, (), 0)) :=
  ⟨rfl, samehash_writeback_sets_flag_but_no_callback (idListener 3) idHash
    (fun t => t) () rfl⟩

/-- C5: `deref_mut` sets `possible_change` unconditionally whatever write the
caller performs; a shared read changes nothing in the guard; no sequence of
accesses ever modifies the hash recorded at creation; and once set, the flag
stays set for the rest of the guard's lifetime. -/
theorem deref_mut_sets_flag_and_hash_is_fixed
    (lck : HashListenerLock T W) (f : T → T) (ops : List (GuardOp T)) :
    ((lck.deref_mut f).possible_change = true) ∧
    (lck.step GuardOp.read = lck) ∧
    ((lck.runOps ops).hash = lck.hash) ∧
    (lck.possible_change = true → (lck.runOps ops).possible_change = true) :=
  ⟨rfl, rfl, runOps_hash ops lck, runOps_flag_mono ops lck⟩

/-- Witness for C5: after one identity write on a lock over `3`, the flag is
set and stays set across a further read and write. -/
theorem deref_mut_sets_flag_and_hash_is_fixed_witness :
    (((idListener 3).lock idHash).deref_mut
      (fun t => t)).possible_change = true ∧
    ((((idListener 3).lock idHash).deref_mut (fun t => t)).runOps
        [GuardOp.read, GuardOp.write (fun t => t + 1)]).possible_change =
      true :=
  ⟨rfl, (deref_mut_sets_flag_and_hash_is_fixed
    (((idListener 3).lock idHash).deref_mut (fun t => t)) (fun t => t)
    [GuardOp.read, GuardOp.write (fun t => t + 1)]).2.2.2 rfl⟩

/-- C6: any number of lock/drop rounds in which only shared reads (possibly
none) are performed leaves the listener and world unchanged with zero total
callback invocations, and `detected_change` is false after any number of
reads within a round. -/
theorem read_only_rounds_never_fire_callback
    (l : HashListener T W) (hashF : T → Nat) (w : W) (nReads reps k : Nat) :
    repeatReadRounds hashF nReads reps l w 0 = some (l, w, 0) ∧
    ((l.lock hashF).runOps (List.replicate k GuardOp.read)).detected_change
      hashF = false := by
  refine ⟨repeatReadRounds_acc hashF nReads l w reps 0, ?_⟩
  rw [runOps_replicate_read]
  rfl

/-- C7: `new_from_file` yields `ReadError` when the file cannot be read,
`SerdeError` (the spec's decode error) when its bytes do not decode into a
`T`, and otherwise a store wrapping the decoded value with the save closure
bound to the same path; in both failure cases the result carries no store. -/
theorem new_from_file_error_and_success_cases
    (decode : String → Except String T) (encode : T → Except String String)
    (file : String) (fs : FS) :
    (∀ e, fsRead file fs = Except.error e →
      SoW.new_from_file decode encode file fs =
        Except.error (DataReadError.ReadError e)) ∧
    (∀ c e, fsRead file fs = Except.ok c → decode c = Except.error e →
      SoW.new_from_file decode encode file fs =
        Except.error (DataReadError.SerdeError e)) ∧
    (∀ c d, fsRead file fs = Except.ok c → decode c = Except.ok d →
      SoW.new_from_file decode encode file fs =
        Except.ok { item := HashListener.new d (saveClosure encode file) }) := by
  refine ⟨?_, ?_, ?_⟩ <;> intros <;> simp_all [SoW.new_from_file]

/-- Witness for C7: reading `"missing.json"` from an empty file system fails,
and `new_from_file` surfaces it as `ReadError` with no store. -/
theorem new_from_file_error_and_success_cases_witness :
    fsRead "missing.json" emptyFS = Except.error "NotFound" ∧
    SoW.new_from_file lenDecode okEncode "missing.json" emptyFS =
      Except.error (DataReadError.ReadError "NotFound") :=
  ⟨rfl, (new_from_file_error_and_success_cases lenDecode okEncode
    "missing.json" emptyFS).1 "NotFound" rfl⟩

/-- C8: `new_from_item` yields `SerdeError` when encoding fails and an error
when the initial write fails (the io error arrives through the `ReadError`
variant), constructing no store in either case; on success the write to
`dest` has happened before construction completes (the file at `dest` holds
the encoding) and the store wraps the item with the save closure bound to
`dest`. -/
theorem new_from_item_writes_then_wraps
    (encode : T → Except String String) (item : T) (dest : String) (fs : FS) :
    (∀ e, encode item = Except.error e →
      SoW.new_from_item encode item dest fs =
        Except.error (DataReadError.SerdeError e)) ∧
    (∀ t e, encode item = Except.ok t → fsWrite dest t fs = Except.error e →
      SoW.new_from_item encode item dest fs =
        Except.error (DataReadError.ReadError e)) ∧
    (∀ t fs2, encode item = Except.ok t → fsWrite dest t fs = Except.ok fs2 →
      SoW.new_from_item encode item dest fs =
        Except.ok ({ item := HashListener.new item (saveClosure encode dest) },
          fs2) ∧
      fsRead dest fs2 = Except.ok t) := by
  refine ⟨?_, ?_, ?_⟩
  · intro e h
    simp [SoW.new_from_item, h]
  · intro t e henc hw
    simp [SoW.new_from_item, henc, hw]
  · intro t fs2 henc hw
    have hw2 := hw
    simp only [fsWrite] at hw2
    refine ⟨by simp [SoW.new_from_item, henc, hw], ?_⟩
    cases hfw : fs.failWrites
    · rw [hfw] at hw2
      simp at hw2
      subst hw2
      simp [fsRead, List.lookup]
    · rw [hfw] at hw2
      simp at hw2

/-- Witness for C8: encoding `2` succeeds, the write lands in the file
system, the store wraps `2`, and the file at `"p.json"` holds the encoding
before construction completes. -/
theorem new_from_item_writes_then_wraps_witness :
    okEncode 2 = Except.ok "aa" ∧
    fsWrite "p.json" "aa" emptyFS =
      Except.ok { files := [("p.json", "aa")], failWrites := false } ∧
    SoW.new_from_item okEncode 2 "p.json" emptyFS =
      Except.ok ({ item := HashListener.new 2 (saveClosure okEncode "p.json") },
        { files := [("p.json", "aa")], failWrites := false }) ∧
    fsRead "p.json" { files := [("p.json", "aa")], failWrites := false } =
      Except.ok "aa" :=
  ⟨rfl, rfl,
    (new_from_item_writes_then_wraps okEncode 2 "p.json" emptyFS).2.2 "aa"
      { files := [("p.json", "aa")], failWrites := false } rfl rfl⟩

/-- C9: when the write succeeds and the encode/decode pair is
value-equivalent on this input (decoding the encoding yields a value with
the same content hash), `new_from_item x path` followed immediately by
`new_from_file path` on the resulting file system yields a store whose held
value is hash-equivalent to `x`. -/
theorem new_from_item_then_new_from_file_roundtrip
    (decode : String → Except String T) (encode : T → Except String String)
    (hashF : T → Nat) (x y : T) (path s : String) (fs : FS)
    (hW : fs.failWrites = false) (hEnc : encode x = Except.ok s)
    (hDec : decode s = Except.ok y) (hHash : hashF y = hashF x) :
    ∃ store fs2 store2,
      SoW.new_from_item encode x path fs = Except.ok (store, fs2) ∧
      SoW.new_from_file decode encode path fs2 = Except.ok store2 ∧
      hashF store2.item.item = hashF x := by
  refine ⟨{ item := HashListener.new x (saveClosure encode path) },
    { fs with files := (path, s) :: fs.files },
    { item := HashListener.new y (saveClosure encode path) }, ?_, ?_, ?_⟩
  · simp [SoW.new_from_item, hEnc, fsWrite, hW]
  · simp [SoW.new_from_file, fsRead, List.lookup, hDec]
  · simpa [HashListener.new] using hHash

/-- Witness for C9: storing `2` at `"p.json"` and loading it back gives a
value with the same content hash. -/
theorem new_from_item_then_new_from_file_roundtrip_witness :
    emptyFS.failWrites = false ∧ okEncode 2 = Except.ok "aa" ∧
    lenDecode "aa" = Except.ok 2 ∧ idHash 2 = idHash 2 ∧
    ∃ store fs2 store2,
      SoW.new_from_item okEncode 2 "p.json" emptyFS =
        Except.ok (store, fs2) ∧
      SoW.new_from_file lenDecode okEncode "p.json" fs2 =
        Except.ok store2 ∧
      idHash store2.item.item = idHash 2 :=
  ⟨rfl, rfl, rfl, rfl,
    new_from_item_then_new_from_file_roundtrip lenDecode okEncode idHash 2 2
      "p.json" "aa" emptyFS rfl rfl rfl rfl⟩

/-- C4: dropping a guard on a store whose callback is the save closure never
surfaces an error, provided the current value still serializes: whatever the
file system (in particular one where every write fails), the drop completes
normally, returning `some` result. -/
theorem sow_guard_drop_swallows_save_errors
    (encode : T → Except String String) (pth : String) (x : T) (f : T → T)
    (hashF : T → Nat) (s : String) (hEnc : encode (f x) = Except.ok s)
    (fs : FS) :
    ((((HashListener.new x (saveClosure encode pth)).lock hashF).deref_mut
      f).drop hashF fs).isSome = true := by
  cases hfw : fs.failWrites
  · simp only [HashListenerLock.drop, HashListener.new, HashListener.lock,
      HashListenerLock.deref_mut, saveClosure, hEnc, fsWrite, hfw]
    split <;> rfl
  · simp only [HashListenerLock.drop, HashListener.new, HashListener.lock,
      HashListenerLock.deref_mut, saveClosure, hEnc, fsWrite, hfw]
    split <;> rfl

/-- Witness for C4: a guard that mutates `1` to `2` on a store bound to a
file system where every write fails still completes its drop normally. -/
theorem sow_guard_drop_swallows_save_errors_witness :
    okEncode 2 = Except.ok "aa" ∧
    ((((HashListener.new 1 (saveClosure okEncode "p.json")).lock
      idHash).deref_mut (fun t => t + 1)).drop idHash failFS).isSome =
      true :=
  ⟨rfl, sow_guard_drop_swallows_save_errors okEncode "p.json" 1
    (fun t => t + 1) idHash "aa" rfl failFS⟩

/-- C10: inside the save closure the write result is discarded but the
encoding result is unwrapped: the closure panics (`none`) exactly on values
the encoder rejects, returns normally with the item unchanged whatever the
write outcome, and never panics when serialization always succeeds. -/
theorem save_closure_unwraps_encoding_but_discards_write
    (encode : T → Except String String) (pth : String) (item : T) (fs : FS) :
    (∀ e, encode item = Except.error e →
      saveClosure encode pth item fs = none) ∧
    (∀ t, encode item = Except.ok t →
      saveClosure encode pth item fs =
        some (item,
          if fs.failWrites then fs
          else { fs with files := (pth, t) :: fs.files })) ∧
    ((∀ v, ∃ u, encode v = Except.ok u) →
      saveClosure encode pth item fs ≠ none) := by
  refine ⟨?_, ?_, ?_⟩
  · intro e h
    simp [saveClosure, h]
  · intro t h
    cases hfw : fs.failWrites <;> simp [saveClosure, h, fsWrite, hfw]
  · intro hAll
    obtain ⟨u, hu⟩ := hAll item
    cases hfw : fs.failWrites <;> simp [saveClosure, hu, fsWrite, hfw]

/-- Witness for C10: a value the encoder rejects makes the save closure
panic, exactly as the `.unwrap()` in the source does. -/
theorem save_closure_unwraps_encoding_but_discards_write_witness :
    badEncode 1 = Except.error "boom" ∧
    saveClosure badEncode "p.json" 1 emptyFS = none :=
  ⟨rfl, (save_closure_unwraps_encoding_but_discards_write badEncode "p.json"
    1 emptyFS).1 "boom" rfl⟩
